import Mathlib

/-!
Shallow embedding of the iSCSI storage driver of this repository:
the control-plane configuration validator (`ValidateCreateData`,
`ValidateUpdateData`, `checkDuplicateStorage`, `validateIQN`,
`validateTargetAddress`, `validatePortalAddress`, `validateAuthParams`,
`PostCreate` from pkg/compute/storagedrivers/iscsi.go) and the host-side
connection state machine (`SIscsiStorage` with `MountStorage`,
`UnmountStorage`, `waitForDevice`, `findDevicePath`, `SetStorageInfo`
from pkg/hostman/storageman).

External collaborators (the iscsiadm tool, TCP dials, the filesystem,
the persistence layer) are modelled as explicit inputs: command outcomes,
directory listings, symlink-resolution maps, and a record list standing
for the database. Go machine integers stay well inside 64 bits here, so
they are modelled as `Int` without wrap-around.
-/

namespace Iscsi

/-! ## Basic character and list utilities -/

/-- Character class of the authority part of the IQN regular expression
`[a-zA-Z0-9\-\.]` in validateIQN (iscsi.go). -/
def isIqnAuthChar (c : Char) : Bool :=
  c.isAlpha || c.isDigit || c == '-' || c == '.'

/-- Character class of the unique-name part of the IQN regular expression
`[a-zA-Z0-9\-\._:]` in validateIQN (iscsi.go). -/
def isIqnNameChar (c : Char) : Bool :=
  isIqnAuthChar c || c == '_' || c == ':'

/-- Remove `p` from the front of `l`, returning the remainder; `none` when
`p` is not an initial segment of `l`. Used to model literal pieces of the
Go regular expressions. -/
def stripChars : List Char → List Char → Option (List Char)
  | [], l => some l
  | _ :: _, [] => none
  | p :: ps, c :: cs => if p = c then stripChars ps cs else none

/-- Consume exactly `k` decimal digits (the `\d{k}` regex form), returning
the remainder. -/
def takeDigits : Nat → List Char → Option (List Char)
  | 0, l => some l
  | _ + 1, [] => none
  | k + 1, c :: cs => if c.isDigit then takeDigits k cs else none

/-- Decide whether `needle` occurs as a contiguous sublist of `hay`;
models Go `strings.Contains`. -/
def listContainsSub (needle : List Char) : List Char → Bool
  | [] => (stripChars needle []).isSome
  | c :: cs => (stripChars needle (c :: cs)).isSome || listContainsSub needle cs

/-- String wrapper for `listContainsSub`: Go `strings.Contains hay needle`. -/
def strContainsSub (hay needle : String) : Bool :=
  listContainsSub needle.toList hay.toList

/-! ## The IQN format check (validateIQN) -/

/-- Scan the part of an IQN after the first authority character: consume
authority characters until a `:` and require a non-empty unique-name of
name characters after it. -/
def iqnScanAuth : List Char → Bool
  | [] => false
  | c :: rest =>
    if c = ':' then decide (rest ≠ []) && rest.all isIqnNameChar
    else isIqnAuthChar c && iqnScanAuth rest

/-- Match `([a-zA-Z0-9\-\.]+):([a-zA-Z0-9\-\._:]+)$`: a non-empty authority,
a colon, then a non-empty unique-name. -/
def iqnMatchTail : List Char → Bool
  | [] => false
  | c :: rest => isIqnAuthChar c && iqnScanAuth rest

/-- Match the anchored regular expression
`^iqn\.\d{4}-\d{2}\.([a-zA-Z0-9\-\.]+):([a-zA-Z0-9\-\._:]+)$`
of validateIQN (iscsi.go), as a chain of literal and digit-run pieces. -/
def matchIqnChars (l : List Char) : Bool :=
  (((((stripChars ('i' :: 'q' :: 'n' :: '.' :: []) l).bind (takeDigits 4)).bind
      (stripChars ('-' :: []))).bind (takeDigits 2)).bind
      (stripChars ('.' :: []))).elim false iqnMatchTail

/-- String form of the IQN regular-expression match. -/
def matchIqn (s : String) : Bool :=
  matchIqnChars s.toList

/-- Embedding of validateIQN (iscsi.go): empty check, regex match, then the
223-character RFC 3720 ceiling. Lengths are counted in characters; every
string the regex accepts is ASCII, so this agrees with Go byte lengths on
the accepting path. -/
def validateIQN (iqn : String) : Except String Unit :=
  if iqn.length = 0 then .error "IQN cannot be empty"
  else if !matchIqn iqn then
    .error "IQN format must be iqn.yyyy-mm.naming-authority:unique-name"
  else if iqn.length > 223 then .error "IQN length cannot exceed 223 characters"
  else .ok ()

/-- Specification-side reading of the IQN pattern, following the spec's
words: `iqn.` then a 4-digit year, `-`, a 2-digit month, `.`, a non-empty
authority of authority characters, `:`, and a non-empty unique-name of
name characters. -/
def IqnSpecFormat (s : String) : Prop :=
  ∃ y m a n : List Char,
    s.toList =
      'i' :: 'q' :: 'n' :: '.' ::
        (y ++ '-' :: (m ++ '.' :: (a ++ ':' :: n))) ∧
    y.length = 4 ∧ (∀ c ∈ y, c.isDigit = true) ∧
    m.length = 2 ∧ (∀ c ∈ m, c.isDigit = true) ∧
    a ≠ [] ∧ (∀ c ∈ a, isIqnAuthChar c = true) ∧
    n ≠ [] ∧ (∀ c ∈ n, isIqnNameChar c = true)

/-! ## Models of the Go standard-library helpers used by the validator -/

/-- Character is an ASCII hexadecimal digit. -/
def isHexChar (c : Char) : Bool :=
  c.isDigit || ('a' ≤ c && c ≤ 'f') || ('A' ≤ c && c ≤ 'F')

/-- Decimal value of a digit list (most significant first). -/
def digitsToNat : List Char → Nat
  | [] => 0
  | c :: cs => digitsToNat cs + (c.toNat - '0'.toNat) * 10 ^ cs.length

/-- Split a character list at every occurrence of the separator character;
a structural model of Go `strings.Split` with a one-character separator. -/
def splitOnChar (sep : Char) : List Char → List (List Char)
  | [] => [[]]
  | c :: cs =>
    if c = sep then [] :: splitOnChar sep cs
    else
      match splitOnChar sep cs with
      | [] => [[c]]
      | g :: gs => (c :: g) :: gs

/-- Split a character list at every occurrence of `::`; used for the IPv6
compressed-zeros marker. -/
def splitOnColonColon : List Char → List (List Char)
  | [] => [[]]
  | ':' :: ':' :: rest => [] :: splitOnColonColon rest
  | c :: rest =>
    match splitOnColonColon rest with
    | [] => [[c]]
    | g :: gs => (c :: g) :: gs

/-- Validity of one dotted-quad IPv4 field under Go `net.ParseIP`: non-empty,
all digits, no leading zero (except the single digit 0), and value at most
255. -/
def validV4Field (l : List Char) : Bool :=
  decide (l ≠ []) && l.all Char.isDigit &&
    (decide (l.length = 1) || decide (l.headD '0' ≠ '0')) &&
    decide (digitsToNat l ≤ 255)

/-- Go `net.ParseIP` on a dotted-quad literal: exactly four valid fields. -/
def isValidIPv4Chars (l : List Char) : Bool :=
  match splitOnChar '.' l with
  | [a, b, c, d] => validV4Field a && validV4Field b && validV4Field c && validV4Field d
  | _ => false

/-- String wrapper for the dotted-quad check. -/
def isValidIPv4 (s : String) : Bool :=
  isValidIPv4Chars s.toList

/-- Validity of one 16-bit IPv6 group: one to four hexadecimal digits. -/
def validV6Group (g : List Char) : Bool :=
  decide (g ≠ []) && decide (g.length ≤ 4) && g.all isHexChar

/-- Weight of one IPv6 group list entry: a trailing dotted-quad counts as two
16-bit groups, a hexadecimal group as one. `none` when the entry is neither. -/
def v6GroupWeight (isLast : Bool) (g : List Char) : Option Nat :=
  if g.contains '.' then
    if isLast && isValidIPv4Chars g then some 2 else none
  else if validV6Group g then some 1 else none

/-- Sum of IPv6 group weights for a group list; `none` on any invalid group.
A dotted-quad group is allowed only in the last position, and only when the
list ends the whole address (`allowV4`). -/
def v6GroupsWeight (allowV4 : Bool) : List (List Char) → Option Nat
  | [] => some 0
  | [g] => v6GroupWeight allowV4 g
  | g :: gs =>
    match v6GroupWeight false g, v6GroupsWeight allowV4 gs with
    | some w, some ws => some (w + ws)
    | _, _ => none

/-- Group list on one side of a `::`: an empty side means no groups. -/
def v6SideWeight (allowV4 : Bool) (l : List Char) : Option Nat :=
  if l = [] then some 0 else v6GroupsWeight allowV4 (splitOnChar ':' l)

/-- Go `net.ParseIP` on a colon-separated literal: either eight groups with
no `::`, or a single `::` with at most seven groups' worth on both sides
combined (a trailing dotted-quad counting as two groups). -/
def isValidIPv6 (s : String) : Bool :=
  match splitOnColonColon s.toList with
  | [whole] =>
    match v6GroupsWeight true (splitOnChar ':' whole) with
    | some w => decide (w = 8)
    | none => false
  | [bef, aft] =>
    match v6SideWeight false bef, v6SideWeight true aft with
    | some wb, some wa => decide (wb + wa ≤ 7)
    | _, _ => false
  | _ => false

/-- Model of Go `net.ParseIP`: the first separator character decides between
the IPv4 and the IPv6 grammar; a string with neither separator is not an IP
literal. -/
def isValidIP (s : String) : Bool :=
  match s.toList.find? (fun c => c == '.' || c == ':') with
  | some '.' => isValidIPv4 s
  | some _ => isValidIPv6 s
  | none => false

/-- Model of Go `net.SplitHostPort`: a bracketed host must be followed by a
colon and a bracket-free, colon-free port; an unbracketed address must have
exactly one colon and no brackets. -/
def splitHostPortChars (l : List Char) : Option (List Char × List Char) :=
  match l with
  | '[' :: rest =>
    match splitOnChar ']' rest with
    | [h, r] =>
      match r with
      | ':' :: p =>
        if p.contains ':' || p.contains '[' then none else some (h, p)
      | _ => none
    | _ => none
  | _ =>
    match splitOnChar ':' l with
    | [h, p] =>
      if h.contains '[' || h.contains ']' || p.contains '[' || p.contains ']' then none
      else some (h, p)
    | _ => none

/-- String wrapper for `splitHostPortChars`. -/
def splitHostPort (s : String) : Option (String × String) :=
  match splitHostPortChars s.toList with
  | some (h, p) => some (⟨h⟩, ⟨p⟩)
  | none => none

/-- Model of Go `strconv.Atoi`: an optional sign followed by at least one
digit. Values here stay far below 2^63, so the Go range error is not
modelled. -/
def atoi (s : String) : Option Int :=
  match s.toList with
  | [] => none
  | '+' :: ds => if ds ≠ [] && ds.all Char.isDigit then some (digitsToNat ds) else none
  | '-' :: ds => if ds ≠ [] && ds.all Char.isDigit then some (-(digitsToNat ds : Int)) else none
  | ds => if ds.all Char.isDigit then some (digitsToNat ds) else none

/-- Model of Go `strings.TrimSpace` (ASCII whitespace suffices here). -/
def trimSpace (s : String) : String :=
  ⟨(s.toList.dropWhile Char.isWhitespace).reverse.dropWhile Char.isWhitespace |>.reverse⟩

/-! ## The remaining field validators (iscsi.go) -/

/-- Embedding of validateTargetAddress (iscsi.go): the target must be a bare
IP literal; hostnames are rejected. -/
def validateTargetAddress (target : String) : Except String Unit :=
  if target.length = 0 then .error "target address cannot be empty"
  else if !isValidIP target then .error "invalid IP address format"
  else .ok ()

/-- Embedding of validatePortalAddress (iscsi.go): `host:port` with an IP
literal host and a port in [1, 65535]. -/
def validatePortalAddress (portal : String) : Except String Unit :=
  if portal.length = 0 then .error "portal address cannot be empty"
  else
    match splitHostPort portal with
    | none => .error "invalid portal format, expected IP:port"
    | some (host, portStr) =>
      if !isValidIP host then .error "invalid IP address in portal"
      else
        match atoi portStr with
        | none => .error "invalid port number"
        | some port =>
          if port < 1 ∨ 65535 < port then
            .error "port number must be between 1 and 65535"
          else .ok ()

/-- Embedding of validateAuthParams (iscsi.go): username and password are
both-or-neither; each at most 255 characters; no whitespace in the
username. -/
def validateAuthParams (username password : String) : Except String Unit :=
  if 0 < username.length ∧ password.length = 0 then
    .error "password is required when username is provided"
  else if 0 < password.length ∧ username.length = 0 then
    .error "username is required when password is provided"
  else if 0 < username.length ∧ 255 < username.length then
    .error "username length cannot exceed 255 characters"
  else if 0 < username.length ∧
      username.toList.any (fun c => c == ' ' || c == '\t' || c == '\n' || c == '\r') = true then
    .error "username cannot contain whitespace characters"
  else if 0 < password.length ∧ 255 < password.length then
    .error "password length cannot exceed 255 characters"
  else .ok ()

/-! ## Control-plane data model (pkg/apis/compute, pkg/compute/models) -/

/-- Storage type tag of this backend (api.STORAGE_ISCSI). -/
def STORAGE_ISCSI : String := "iscsi"

/-- Online lifecycle status (api.STORAGE_ONLINE). -/
def STORAGE_ONLINE : String := "online"

/-- Creation input fields relevant to the iSCSI driver
(api.StorageCreateInput). -/
structure StorageCreateInput where
  iscsiTarget : String
  iscsiIqn : String
  iscsiPortal : String
  iscsiUsername : String
  iscsiPassword : String
  iscsiLunId : Int
  deriving Repr, DecidableEq

/-- Configuration blob written by the validator (api.IscsiStorageConf). -/
structure IscsiStorageConf where
  target : String
  iqn : String
  portal : String
  username : String
  password : String
  lunId : Int
  deriving Repr, DecidableEq

/-- Persisted storage record as seen by the driver (models.SStorage): the
configuration fields stand for the stored `storage_conf` blob, whose absent
keys read back as the zero values used here. -/
structure StorageRec where
  id : String
  storageType : String
  storagecacheId : String
  status : String
  target : String
  iqn : String
  portal : String
  lunId : Int
  deriving Repr, DecidableEq

/-- Driver-level error taxonomy (pkg/httperrors constructors used in
iscsi.go). -/
inductive ApiError where
  | missingParameter (param : String)
  | inputParameter (msg : String)
  | duplicateResource (target iqn portal : String) (lunId : Int)
  | badRequest (msg : String)
  deriving Repr, DecidableEq

/-- Embedding of checkDuplicateStorage (iscsi.go): scan the fetched iSCSI
storage records for one whose stored (target, iqn, portal, lun_id) tuple
equals the input's. -/
def checkDuplicateStorage (input : StorageCreateInput) (storages : List StorageRec) :
    Option ApiError :=
  match storages.find? (fun r =>
      decide (input.iscsiTarget = r.target ∧ input.iscsiIqn = r.iqn ∧
        input.iscsiPortal = r.portal ∧ input.iscsiLunId = r.lunId)) with
  | some r => some (.duplicateResource r.target r.iqn r.portal r.lunId)
  | none => none

/-- Embedding of testIscsiConnection (iscsi.go): parse the portal, then
attempt the 10-second TCP dial, whose outcome is the environment input
`dialOk`. -/
def testIscsiConnection (portal : String) (dialOk : Bool) : Except String Unit :=
  match splitHostPort portal with
  | none => .error "failed to parse portal address"
  | some (_, portStr) =>
    match atoi portStr with
    | none => .error "invalid port in portal"
    | some _ =>
      if dialOk then .ok ()
      else .error ("failed to connect to iSCSI portal " ++ portal)

/-- Embedding of ValidateCreateData (iscsi.go): required-field checks, the
field validators, the negative-lun coercion, the duplicate scan, the
connectivity probe, and finally the trimmed configuration blob that is
stored. `storages` is the list the duplicate scan fetches and `dialOk` the
probe outcome. -/
def validateCreateData (input : StorageCreateInput) (storages : List StorageRec)
    (dialOk : Bool) : Except ApiError IscsiStorageConf :=
  if input.iscsiTarget.length = 0 then .error (.missingParameter "iscsi_target")
  else
    match validateTargetAddress input.iscsiTarget with
    | .error e => .error (.inputParameter ("invalid iscsi_target: " ++ e))
    | .ok () =>
      if input.iscsiIqn.length = 0 then .error (.missingParameter "iscsi_iqn")
      else
        match validateIQN input.iscsiIqn with
        | .error e => .error (.inputParameter ("invalid iscsi_iqn: " ++ e))
        | .ok () =>
          if input.iscsiPortal.length = 0 then .error (.missingParameter "iscsi_portal")
          else
            match validatePortalAddress input.iscsiPortal with
            | .error e => .error (.inputParameter ("invalid iscsi_portal: " ++ e))
            | .ok () =>
              match validateAuthParams input.iscsiUsername input.iscsiPassword with
              | .error e =>
                .error (.inputParameter ("invalid authentication parameters: " ++ e))
              | .ok () =>
                let input :=
                  if input.iscsiLunId < 0 then { input with iscsiLunId := 0 } else input
                match checkDuplicateStorage input storages with
                | some e => .error e
                | none =>
                  match testIscsiConnection input.iscsiPortal dialOk with
                  | .error e => .error (.badRequest ("iSCSI connection test failed: " ++ e))
                  | .ok () =>
                    .ok {
                      target := trimSpace input.iscsiTarget
                      iqn := trimSpace input.iscsiIqn
                      portal := trimSpace input.iscsiPortal
                      username := trimSpace input.iscsiUsername
                      password := trimSpace input.iscsiPassword
                      lunId := input.iscsiLunId
                    }

/-! ## JSON configuration blobs (yunion.io/x/jsonutils, modelled) -/

/-- Minimal JSON value model covering the shapes the iSCSI configuration
blob uses. -/
inductive JsonVal where
  | str (s : String)
  | int (n : Int)
  | dict (fields : List (String × JsonVal))

/-- Set a key in a JSON dictionary field list, replacing an existing
binding or appending a new one; models JSONDict.Set (dictionaries carry no
duplicate keys). -/
def jsonSetKey : List (String × JsonVal) → String → JsonVal → List (String × JsonVal)
  | [], k, v => [(k, v)]
  | (k1, v1) :: rest, k, v =>
    if k1 == k then (k, v) :: rest else (k1, v1) :: jsonSetKey rest k v

/-- Read a string key from a JSON dictionary field list; models
JSONDict.GetString with the error ignored (missing or non-string keys read
as the empty string, the way the Go call sites use it). -/
def jsonGetString (fields : List (String × JsonVal)) (k : String) : String :=
  match fields.find? (fun p => p.1 == k) with
  | some (_, .str v) => v
  | some (_, .int n) => toString n
  | _ => ""

/-! ## The update path (ValidateUpdateData, iscsi.go) -/

/-- Update input fields relevant to the iSCSI driver
(api.StorageUpdateInput): the credential arguments, the configuration blob
carried on the input, and the configuration-changed flag read by the
persistence layer. -/
structure StorageUpdateInput where
  iscsiUsername : String
  iscsiPassword : String
  storageConf : List (String × JsonVal)
  updateStorageConf : Bool

/-- Embedding of testIscsiConnectionUpdate (iscsi.go): read target, iqn and
portal back from the configuration blob, require all three, parse the
portal, then the dial outcome `dialOk` decides. -/
def testIscsiConnectionUpdate (input : StorageUpdateInput) (dialOk : Bool) :
    Except String Unit :=
  let target := jsonGetString input.storageConf "target"
  let iqn := jsonGetString input.storageConf "iqn"
  let portal := jsonGetString input.storageConf "portal"
  if target.length = 0 ∨ iqn.length = 0 ∨ portal.length = 0 then
    .error "missing required iSCSI configuration parameters"
  else
    match splitHostPort portal with
    | none => .error "failed to parse portal address"
    | some (_, portStr) =>
      match atoi portStr with
      | none => .error "invalid port in portal"
      | some _ =>
        if dialOk then .ok ()
        else .error ("failed to connect to iSCSI portal " ++ portal)

/-- Embedding of ValidateUpdateData (iscsi.go). When a username or password
is supplied the pair is validated, the trimmed values are written into the
configuration blob and the changed flag raised, and only then is the
connectivity probe run; the (possibly already modified) input is returned
together with the outcome. The base driver's update validator is an
external collaborator modelled from the spec as a no-op pass-through. -/
def validateUpdateData (input : StorageUpdateInput) (dialOk : Bool) :
    StorageUpdateInput × Except ApiError Unit :=
  if 0 < input.iscsiUsername.length ∨ 0 < input.iscsiPassword.length then
    match validateAuthParams input.iscsiUsername input.iscsiPassword with
    | .error e =>
      (input, .error (.inputParameter ("invalid authentication parameters: " ++ e)))
    | .ok () =>
      let input :=
        if 0 < input.iscsiUsername.length then
          { input with
            storageConf :=
              jsonSetKey input.storageConf "username" (.str (trimSpace input.iscsiUsername))
            updateStorageConf := true }
        else input
      let input :=
        if 0 < input.iscsiPassword.length then
          { input with
            storageConf :=
              jsonSetKey input.storageConf "password" (.str (trimSpace input.iscsiPassword))
            updateStorageConf := true }
        else input
      match testIscsiConnectionUpdate input dialOk with
      | .error e =>
        (input, .error (.badRequest ("iSCSI connection test failed with updated configuration: " ++ e)))
      | .ok () => (input, .ok ())
  else (input, .ok ())

/-! ## The cache reconciler (PostCreate, iscsi.go) -/

/-- Storage cache record (models.SStoragecache) as provisioned by
PostCreate. -/
structure CacheRec where
  id : String
  name : String
  path : String
  externalId : String
  deriving Repr, DecidableEq

/-- Persistence state PostCreate operates on: the storage records and the
cache records. Database writes are modelled as succeeding; a failing write
leaves the state unchanged in the code and is outside this model. -/
structure Db where
  storages : List StorageRec
  caches : List CacheRec
  deriving Repr, DecidableEq

/-- Update the storage record with the given id in place; models
db.Update on a fetched record. -/
def dbUpdateStorage (db : Db) (sid : String) (f : StorageRec → StorageRec) : Db :=
  { db with storages := db.storages.map (fun r => if r.id = sid then f r else r) }

/-- Look a storage record up by id. -/
def dbGetStorage (db : Db) (sid : String) : Option StorageRec :=
  db.storages.find? (fun r => r.id == sid)

/-- Embedding of PostCreate (iscsi.go) acting on the record with id `sid`:
keep an already-assigned cache and only flip the status online; otherwise
adopt the cache of the first other iSCSI record with the same
(target, iqn, portal) triple — the lun is deliberately not compared — and
flip online; otherwise insert a fresh cache record (the insert-generated
identifier is the environment input `freshId`) and attach it. -/
def postCreate (sid freshId cachePath : String) (db : Db) : Db :=
  match db.storages.find? (fun r => r.id == sid) with
  | none => db
  | some storage =>
    if storage.storagecacheId ≠ "" then
      dbUpdateStorage db sid (fun r => { r with status := STORAGE_ONLINE })
    else
      let iscsiStorages := db.storages.filter (fun r => r.storageType == STORAGE_ISCSI)
      match iscsiStorages.find? (fun r =>
          decide (r.id ≠ storage.id ∧ storage.target = r.target ∧
            storage.iqn = r.iqn ∧ storage.portal = r.portal ∧
            r.storagecacheId ≠ "")) with
      | some existing =>
        dbUpdateStorage db sid (fun r =>
          { r with storagecacheId := existing.storagecacheId, status := STORAGE_ONLINE })
      | none =>
        let sc : CacheRec :=
          { id := freshId
            name := "iscsi-cache-" ++ sid
            path := cachePath
            externalId := sid }
        { storages := (dbUpdateStorage db sid (fun r =>
            { r with storagecacheId := freshId, status := STORAGE_ONLINE })).storages
          caches := db.caches ++ [sc] }

/-! ## Host-side storage instance (pkg/hostman/storageman) -/

/-- Host-side iSCSI storage instance (SIscsiStorage): the base-storage
identity fields, the unmarshalled SIscsiStorageConf, the raw configuration
dictionary, and the runtime connection state. -/
structure IscsiStorage where
  storageId : String
  storageName : String
  storageConf : Option (List (String × JsonVal))
  target : String
  iqn : String
  portal : String
  username : String
  password : String
  lunId : Int
  devicePath : String
  isConnected : Bool

/-- Freshly constructed instance (NewIscsiStorage): zero values, not
connected, no device path. -/
def newIscsiStorage : IscsiStorage :=
  { storageId := ""
    storageName := ""
    storageConf := none
    target := ""
    iqn := ""
    portal := ""
    username := ""
    password := ""
    lunId := 0
    devicePath := ""
    isConnected := false }

/-- Unmarshal an iSCSI configuration blob into the typed fields; models
jsonutils Unmarshal of SIscsiStorageConf: a non-dictionary blob or a
type-mismatched field fails, absent fields keep their zero value. -/
def unmarshalIscsiConf (v : JsonVal) :
    Except String (String × String × String × String × String × Int) :=
  match v with
  | .dict fields =>
    let getStr (k : String) : Except String String :=
      match fields.find? (fun p => p.1 == k) with
      | some (_, .str s) => .ok s
      | some _ => .error ("unmarshal iSCSI storage config: field " ++ k)
      | none => .ok ""
    let getInt (k : String) : Except String Int :=
      match fields.find? (fun p => p.1 == k) with
      | some (_, .int n) => .ok n
      | some _ => .error ("unmarshal iSCSI storage config: field " ++ k)
      | none => .ok 0
    match getStr "target", getStr "iqn", getStr "portal",
        getStr "username", getStr "password", getInt "lun_id" with
    | .ok t, .ok i, .ok p, .ok u, .ok w, .ok l => .ok (t, i, p, u, w, l)
    | _, _, _, _, _, _ => .error "unmarshal iSCSI storage config"
  | _ => .error "unmarshal iSCSI storage config: not a dict"

/-- Embedding of SetStorageInfo (storageman): the storage id, storage name
and raw configuration dictionary are assigned first; only then is the blob
unmarshalled, so an unmarshal failure returns an error with the identity
fields already overwritten. -/
def setStorageInfo (s : IscsiStorage) (storageId storageName : String)
    (conf : Option JsonVal) : IscsiStorage × Except String Unit :=
  let s := { s with storageId := storageId, storageName := storageName }
  match conf with
  | none => (s, .ok ())
  | some c =>
    let s :=
      match c with
      | .dict d => { s with storageConf := some d }
      | _ => s
    match unmarshalIscsiConf c with
    | .error e => (s, .error e)
    | .ok (t, i, p, u, w, l) =>
      let s2 : IscsiStorage :=
        { s with
          target := t
          iqn := i
          portal := p
          username := u
          password := w
          lunId := l }
      (s2, .ok ())

/-! ## The device-path resolver (findDevicePath, storageman) -/

/-- Unanchored match of the compiled pattern
`ip-<targetIP>.*-iscsi-<iqn>-lun-<lunId>` against an entry name, with the
two interpolated strings taken literally (regexp.QuoteMeta) and `.`
matching any character except a newline. `lit2Then` looks for the second
literal after a gap, `patAt` tries every starting position for the first
literal. -/
def lit2Then (lit2 : List Char) : List Char → Bool
  | [] => (stripChars lit2 []).isSome
  | c :: rest =>
    (stripChars lit2 (c :: rest)).isSome || (c != '\n' && lit2Then lit2 rest)

/-- Search every starting position for the first literal, then the gap and
the second literal. -/
def patAt (lit1 lit2 : List Char) : List Char → Bool
  | [] =>
    match stripChars lit1 [] with
    | some r => lit2Then lit2 r
    | none => false
  | c :: rest =>
    (match stripChars lit1 (c :: rest) with
      | some r => lit2Then lit2 r
      | none => false) || patAt lit1 lit2 rest

/-- Name match of findDevicePath (storageman): the device symlink name
contains `ip-<targetIP>`, then any run of non-newline characters, then
`-iscsi-<iqn>-lun-<lunId>`. -/
def iscsiNameMatches (targetIP iqn : String) (lunId : Int) (name : String) : Bool :=
  patAt ("ip-" ++ targetIP).toList
    ("-iscsi-" ++ iqn ++ "-lun-" ++ toString lunId).toList name.toList

/-- Directory the device symlinks live in. -/
def byPathDir : String := "/dev/disk/by-path"

/-- Walk the directory entries: on the first name match, resolve the joined
symlink path; a failed resolution is logged and skipped, a successful one
is returned. -/
def findDeviceInEntries (targetIP iqn : String) (lunId : Int)
    (resolve : String → Option String) : List String → Option String
  | [] => none
  | e :: rest =>
    if iscsiNameMatches targetIP iqn lunId e then
      match resolve (byPathDir ++ "/" ++ e) with
      | some real => some real
      | none => findDeviceInEntries targetIP iqn lunId resolve rest
    else findDeviceInEntries targetIP iqn lunId resolve rest

/-- Embedding of findDevicePath (storageman): the target IP is everything
before the first colon of the portal, the entries are the directory
listing, `resolve` models filepath.EvalSymlinks. -/
def findDevicePath (s : IscsiStorage) (entries : List String)
    (resolve : String → Option String) : Except String String :=
  let targetIP : String := ⟨(splitOnChar ':' s.portal.toList).headD []⟩
  match findDeviceInEntries targetIP s.iqn s.lunId resolve entries with
  | some real => .ok real
  | none =>
    .error ("device not found for target " ++ s.iqn ++ " lun " ++ toString s.lunId)

/-- Specification-side pipeline for the amended resolver contract: keep the
entries whose name matches, join each with the directory, and return the
first whose symlink resolution succeeds. -/
def firstResolved (resolve : String → Option String) : List String → Option String
  | [] => none
  | p :: rest =>
    match resolve p with
    | some real => some real
    | none => firstResolved resolve rest

/-- Matching entries of a listing, joined with the directory path. -/
def matchingPaths (s : IscsiStorage) (entries : List String) : List String :=
  (entries.filter (fun e =>
      iscsiNameMatches ⟨(splitOnChar ':' s.portal.toList).headD []⟩ s.iqn s.lunId e)).map
    (fun e => byPathDir ++ "/" ++ e)

/-! ## The connection state machine (MountStorage / UnmountStorage) -/

/-- Combined output and error status of one iscsiadm invocation
(procutils command Output). -/
structure CmdResult where
  output : String
  err : Bool

/-- External invocations the state machine can issue, for counting
side effects. -/
inductive IscsiCall where
  | discovery
  | setParam (name : String)
  | login
  | logout
  | deleteNode
  deriving Repr, DecidableEq

/-- Environment of one MountStorage run: the outcomes of the discovery,
node-parameter, login and logout invocations and the sequence of
findDevicePath results observed by the polling loop within its 30-second
deadline. -/
structure MountEnv where
  discover : CmdResult
  setAuthmethod : CmdResult
  setUsername : CmdResult
  setPassword : CmdResult
  login : CmdResult
  logout : CmdResult
  polls : List (Except String String)

/-- Environment of one UnmountStorage run. -/
structure UnmountEnv where
  logout : CmdResult
  deleteNode : CmdResult

/-- Embedding of discoverTarget (storageman): the invocation must succeed
and its output must contain the configured IQN. -/
def discoverTarget (s : IscsiStorage) (r : CmdResult) : Except String Unit :=
  if r.err then .error ("iscsiadm discovery failed: " ++ r.output)
  else if strContainsSub r.output s.iqn then .ok ()
  else .error ("target IQN " ++ s.iqn ++ " not found in discovery results")

/-- Embedding of setNodeParam (storageman). -/
def setNodeParam (r : CmdResult) (param : String) : Except String Unit :=
  if r.err then .error ("failed to set node parameter " ++ param ++ ": " ++ r.output)
  else .ok ()

/-- Embedding of setAuthParams (storageman): authmethod, username and
password node parameters in order, stopping at the first failure. -/
def setAuthParams (env : MountEnv) : Except String Unit × List IscsiCall :=
  match setNodeParam env.setAuthmethod "node.session.auth.authmethod" with
  | .error e => (.error e, [.setParam "node.session.auth.authmethod"])
  | .ok () =>
    match setNodeParam env.setUsername "node.session.auth.username" with
    | .error e =>
      (.error e, [.setParam "node.session.auth.authmethod",
        .setParam "node.session.auth.username"])
    | .ok () =>
      match setNodeParam env.setPassword "node.session.auth.password" with
      | .error e =>
        (.error e, [.setParam "node.session.auth.authmethod",
          .setParam "node.session.auth.username",
          .setParam "node.session.auth.password"])
      | .ok () =>
        (.ok (), [.setParam "node.session.auth.authmethod",
          .setParam "node.session.auth.username",
          .setParam "node.session.auth.password"])

/-- Embedding of loginTarget (storageman): set CHAP parameters when
credentials are configured, then log in; a failure whose output reports an
already existing session counts as success. -/
def loginTarget (s : IscsiStorage) (env : MountEnv) : Except String Unit × List IscsiCall :=
  let auth :=
    if s.username ≠ "" && s.password ≠ "" then setAuthParams env else (.ok (), [])
  match auth.1 with
  | .error e => (.error ("set authentication parameters: " ++ e), auth.2)
  | .ok () =>
    let calls := auth.2 ++ [.login]
    if env.login.err then
      if strContainsSub env.login.output "already exists" then (.ok (), calls)
      else (.error ("iscsiadm login failed: " ++ env.login.output), calls)
    else (.ok (), calls)

/-- Embedding of logoutTarget (storageman): a failure whose output reports
the session as not found counts as success. -/
def logoutTarget (r : CmdResult) : Except String Unit :=
  if r.err then
    if strContainsSub r.output "not found" then .ok ()
    else .error ("iscsiadm logout failed: " ++ r.output)
  else .ok ()

/-- Embedding of cleanupDiscovery (storageman): delete the node record,
ignoring an already-absent node. -/
def cleanupDiscovery (r : CmdResult) : Except String Unit :=
  if r.err then
    if strContainsSub r.output "not found" then .ok ()
    else .error ("cleanup discovery failed: " ++ r.output)
  else .ok ()

/-- Embedding of waitForDevice (storageman): the polls are the
findDevicePath outcomes observed at the 1-second intervals within the
30-second deadline; the first successful, non-empty path wins, a run with
no such poll is the timeout. -/
def waitForDevice : List (Except String String) → Except String String
  | [] => .error "timeout waiting for iSCSI device to appear"
  | .ok v :: rest => if v ≠ "" then .ok v else waitForDevice rest
  | .error _ :: rest => waitForDevice rest

/-- Result of one Mount or Unmount run: the new instance state, the
returned error value, and the external invocations issued. -/
structure StepResult where
  state : IscsiStorage
  result : Except String Unit
  calls : List IscsiCall

/-- Embedding of MountStorage (storageman): an already-connected instance
returns immediately; otherwise discovery, login, device wait; a wait
failure rolls back with a best-effort logout and surfaces the wrapped wait
error; success records the device path and sets the connected flag. -/
def mountStorage (s : IscsiStorage) (env : MountEnv) : StepResult :=
  if s.isConnected then ⟨s, .ok (), []⟩
  else
    match discoverTarget s env.discover with
    | .error e => ⟨s, .error ("discover iSCSI target: " ++ e), [.discovery]⟩
    | .ok () =>
      let lg := loginTarget s env
      match lg.1 with
      | .error e => ⟨s, .error ("login to iSCSI target: " ++ e), .discovery :: lg.2⟩
      | .ok () =>
        match waitForDevice env.polls with
        | .error e =>
          ⟨s, .error ("wait for iSCSI device: " ++ e), .discovery :: lg.2 ++ [.logout]⟩
        | .ok p => ⟨{ s with devicePath := p, isConnected := true }, .ok (),
            .discovery :: lg.2⟩

/-- Embedding of UnmountStorage (storageman): an already-disconnected
instance returns immediately; otherwise logout and node cleanup are issued
(their failures only logged) and the runtime state is cleared; the call
always returns success. -/
def unmountStorage (s : IscsiStorage) (_env : UnmountEnv) : StepResult :=
  if !s.isConnected then ⟨s, .ok (), []⟩
  else ⟨{ s with devicePath := "", isConnected := false }, .ok (),
    [.logout, .deleteNode]⟩

/-- Runtime invariant of the spec: a set connected flag implies a non-empty
resolved device path. -/
def ConnInv (s : IscsiStorage) : Prop :=
  s.isConnected = true → s.devicePath ≠ ""

end Iscsi

namespace Iscsi

/-! ## Lemmas about the utilities and the IQN matcher -/

theorem stripChars_eq_some {p l r : List Char} :
    stripChars p l = some r ↔ l = p ++ r := by
  induction p generalizing l with
  | nil => simp [stripChars]
  | cons c cs ih =>
    cases l with
    | nil =>
      constructor
      · intro h; simp [stripChars] at h
      · intro h; simp at h
    | cons d ds =>
      by_cases h : c = d
      · subst h
        simp only [stripChars, if_pos rfl, List.cons_append, List.cons.injEq,
          true_and]
        exact ih
      · simp only [stripChars, if_neg h, List.cons_append, List.cons.injEq]
        constructor
        · intro hx; simp at hx
        · rintro ⟨h1, _⟩; exact absurd h1.symm h

theorem takeDigits_eq_some {k : Nat} {l r : List Char} :
    takeDigits k l = some r ↔
      ∃ d : List Char, l = d ++ r ∧ d.length = k ∧ ∀ c ∈ d, c.isDigit = true := by
  induction k generalizing l with
  | zero =>
    simp only [takeDigits, Option.some.injEq]
    constructor
    · intro h
      exact ⟨[], by simp [h], rfl, by simp⟩
    · rintro ⟨d, hl, hd, _⟩
      rw [List.length_eq_zero] at hd
      subst hd
      simpa using hl
  | succ k ih =>
    cases l with
    | nil =>
      constructor
      · intro h; simp [takeDigits] at h
      · rintro ⟨d, hl, hd, _⟩
        cases d with
        | nil => simp at hd
        | cons c cs => simp at hl
    | cons c cs =>
      by_cases hc : c.isDigit = true
      · constructor
        · intro h
          rw [show takeDigits (k + 1) (c :: cs) = takeDigits k cs from by
            simp [takeDigits, hc]] at h
          obtain ⟨d, hl, hd, hall⟩ := ih.mp h
          refine ⟨c :: d, by simp [hl], by simp [hd], ?_⟩
          intro x hx
          rcases List.mem_cons.mp hx with h' | h'
          · subst h'; exact hc
          · exact hall x h'
        · rintro ⟨d, hl, hd, hall⟩
          cases d with
          | nil => simp at hd
          | cons e es =>
            simp only [List.cons_append, List.cons.injEq] at hl
            rw [show takeDigits (k + 1) (c :: cs) = takeDigits k cs from by
              simp [takeDigits, hc]]
            exact ih.mpr ⟨es, hl.2, by simpa using hd,
              fun x hx => hall x (List.mem_cons_of_mem e hx)⟩
      · constructor
        · intro h
          rw [show takeDigits (k + 1) (c :: cs) = none from by
            simp [takeDigits, hc]] at h
          simp at h
        · rintro ⟨d, hl, hd, hall⟩
          cases d with
          | nil => simp at hd
          | cons e es =>
            simp only [List.cons_append, List.cons.injEq] at hl
            rw [hl.1] at hc
            exact absurd (hall e (by simp)) hc

theorem iqnScanAuth_iff {l : List Char} :
    iqnScanAuth l = true ↔
      ∃ a n : List Char, l = a ++ ':' :: n ∧
        (∀ c ∈ a, isIqnAuthChar c = true) ∧ n ≠ [] ∧
        (∀ c ∈ n, isIqnNameChar c = true) := by
  induction l with
  | nil =>
    constructor
    · intro h; simp [iqnScanAuth] at h
    · rintro ⟨a, n, hl, _⟩
      cases a <;> simp at hl
  | cons c rest ih =>
    by_cases hc : c = ':'
    · subst hc
      constructor
      · intro h
        simp only [iqnScanAuth, if_true, eq_self_iff_true, Bool.and_eq_true,
          decide_eq_true_eq, List.all_eq_true] at h
        exact ⟨[], rest, by simp, by simp, h.1, h.2⟩
      · rintro ⟨a, n, hl, hauth, hne, hname⟩
        cases a with
        | nil =>
          simp only [List.nil_append, List.cons.injEq, true_and] at hl
          subst hl
          simp only [iqnScanAuth, if_true, eq_self_iff_true, Bool.and_eq_true,
            decide_eq_true_eq, List.all_eq_true]
          exact ⟨hne, hname⟩
        | cons e es =>
          simp only [List.cons_append, List.cons.injEq] at hl
          have h1 := hauth e (by simp)
          rw [← hl.1] at h1
          exact absurd h1 (by decide)
    · have hstep : iqnScanAuth (c :: rest) = (isIqnAuthChar c && iqnScanAuth rest) := by
        simp [iqnScanAuth, hc]
      rw [hstep, Bool.and_eq_true, ih]
      constructor
      · rintro ⟨hcauth, a, n, hl, hauth, hne, hname⟩
        refine ⟨c :: a, n, by simp [hl], ?_, hne, hname⟩
        intro x hx
        rcases List.mem_cons.mp hx with h' | h'
        · subst h'; exact hcauth
        · exact hauth x h'
      · rintro ⟨a, n, hl, hauth, hne, hname⟩
        cases a with
        | nil =>
          simp only [List.nil_append, List.cons.injEq] at hl
          exact absurd hl.1 hc
        | cons e es =>
          simp only [List.cons_append, List.cons.injEq] at hl
          obtain ⟨he, hrest⟩ := hl
          subst he
          exact ⟨hauth c (by simp), es, n, hrest,
            fun x hx => hauth x (List.mem_cons_of_mem c hx), hne, hname⟩

theorem iqnMatchTail_iff {l : List Char} :
    iqnMatchTail l = true ↔
      ∃ a n : List Char, l = a ++ ':' :: n ∧ a ≠ [] ∧
        (∀ c ∈ a, isIqnAuthChar c = true) ∧ n ≠ [] ∧
        (∀ c ∈ n, isIqnNameChar c = true) := by
  cases l with
  | nil =>
    constructor
    · intro h; simp [iqnMatchTail] at h
    · rintro ⟨a, n, hl, _⟩
      cases a <;> simp at hl
  | cons c rest =>
    have hstep : iqnMatchTail (c :: rest) = (isIqnAuthChar c && iqnScanAuth rest) := rfl
    rw [hstep, Bool.and_eq_true, iqnScanAuth_iff]
    constructor
    · rintro ⟨hcauth, a, n, hl, hauth, hne, hname⟩
      refine ⟨c :: a, n, by simp [hl], by simp, ?_, hne, hname⟩
      intro x hx
      rcases List.mem_cons.mp hx with h' | h'
      · subst h'; exact hcauth
      · exact hauth x h'
    · rintro ⟨a, n, hl, hane, hauth, hne, hname⟩
      cases a with
      | nil => exact absurd rfl hane
      | cons e es =>
        simp only [List.cons_append, List.cons.injEq] at hl
        obtain ⟨he, hrest⟩ := hl
        subst he
        exact ⟨hauth c (by simp), es, n, hrest,
          fun x hx => hauth x (List.mem_cons_of_mem c hx), hne, hname⟩

theorem elim_false_eq_true {o : Option (List Char)} {f : List Char → Bool} :
    o.elim false f = true ↔ ∃ x, o = some x ∧ f x = true := by
  cases o <;> simp

theorem matchIqnChars_iff {l : List Char} :
    matchIqnChars l = true ↔
      ∃ y m a n : List Char,
        l = 'i' :: 'q' :: 'n' :: '.' ::
          (y ++ '-' :: (m ++ '.' :: (a ++ ':' :: n))) ∧
        y.length = 4 ∧ (∀ c ∈ y, c.isDigit = true) ∧
        m.length = 2 ∧ (∀ c ∈ m, c.isDigit = true) ∧
        a ≠ [] ∧ (∀ c ∈ a, isIqnAuthChar c = true) ∧
        n ≠ [] ∧ (∀ c ∈ n, isIqnNameChar c = true) := by
  unfold matchIqnChars
  rw [elim_false_eq_true]
  constructor
  · rintro ⟨l5, hchain, htail⟩
    simp only [Option.bind_eq_some] at hchain
    obtain ⟨l4, ⟨l3, ⟨l2, ⟨l1, h1, h2⟩, h3⟩, h4⟩, h5⟩ := hchain
    obtain ⟨a, n, hl5, hane, hauth, hne, hname⟩ := iqnMatchTail_iff.mp htail
    obtain ⟨y, hl1, hy, hydig⟩ := takeDigits_eq_some.mp h2
    obtain ⟨m, hl3, hm, hmdig⟩ := takeDigits_eq_some.mp h4
    have e1 := stripChars_eq_some.mp h1
    have e3 := stripChars_eq_some.mp h3
    have e5 := stripChars_eq_some.mp h5
    refine ⟨y, m, a, n, ?_, hy, hydig, hm, hmdig, hane, hauth, hne, hname⟩
    rw [e1, hl1, e3, hl3, e5, hl5]
    simp
  · rintro ⟨y, m, a, n, hl, hy, hydig, hm, hmdig, hane, hauth, hne, hname⟩
    refine ⟨a ++ ':' :: n, ?_, iqnMatchTail_iff.mpr ⟨a, n, rfl, hane, hauth, hne, hname⟩⟩
    simp only [Option.bind_eq_some]
    refine ⟨'.' :: (a ++ ':' :: n),
      ⟨m ++ '.' :: (a ++ ':' :: n),
        ⟨'-' :: (m ++ '.' :: (a ++ ':' :: n)),
          ⟨y ++ '-' :: (m ++ '.' :: (a ++ ':' :: n)),
            stripChars_eq_some.mpr (by rw [hl]; simp),
            takeDigits_eq_some.mpr ⟨y, rfl, hy, hydig⟩⟩,
          stripChars_eq_some.mpr (by simp)⟩,
        takeDigits_eq_some.mpr ⟨m, rfl, hm, hmdig⟩⟩,
      stripChars_eq_some.mpr (by simp)⟩

end Iscsi

namespace Iscsi

/-! ## Helper lemmas about the host-side state machine -/

theorem waitForDevice_ok_ne {polls : List (Except String String)} {v : String}
    (h : waitForDevice polls = .ok v) : v ≠ "" := by
  induction polls with
  | nil => simp [waitForDevice] at h
  | cons p rest ih =>
    cases p with
    | error e =>
      rw [show waitForDevice (.error e :: rest) = waitForDevice rest from rfl] at h
      exact ih h
    | ok w =>
      by_cases hw : w = ""
      · rw [show waitForDevice (.ok w :: rest) = if w ≠ "" then .ok w else waitForDevice rest
          from rfl, if_neg (by simp [hw])] at h
        exact ih h
      · rw [show waitForDevice (.ok w :: rest) = if w ≠ "" then .ok w else waitForDevice rest
          from rfl, if_pos hw] at h
        cases h
        exact hw

/-! ## C9: the IQN validator characterization -/

theorem validateIQN_ok_iff {s : String} :
    validateIQN s = .ok () ↔ (matchIqn s = true ∧ s.length ≤ 223) := by
  unfold validateIQN
  by_cases h0 : s.length = 0
  · have hsl : s.toList = [] := List.length_eq_zero.mp h0
    have hmf : matchIqn s = false := by
      unfold matchIqn
      rw [hsl]
      rfl
    simp [h0, hmf]
  · rw [if_neg h0]
    by_cases hmt : matchIqn s
    · rw [hmt]
      by_cases h223 : s.length > 223
      · simp [h223]
      · simp [h223, hmt, Nat.le_of_not_lt h223]
    · simp only [Bool.not_eq_true] at hmt
      simp [hmt]

/-- C9: validateIQN accepts a qualified name exactly when it matches the
`iqn.<4-digit year>-<2-digit month>.<authority>:<name>` pattern (with the
regex's character classes) and is at most 223 characters long; every
deviation — empty string, missing iqn prefix, 2-digit year, missing colon,
or excess length — is rejected. -/
theorem c9_validateIQN_pattern (s : String) :
    validateIQN s = .ok () ↔ (IqnSpecFormat s ∧ s.length ≤ 223) := by
  rw [validateIQN_ok_iff]
  constructor
  · rintro ⟨hm, hl⟩
    exact ⟨matchIqnChars_iff.mp hm, hl⟩
  · rintro ⟨hf, hl⟩
    exact ⟨matchIqnChars_iff.mpr hf, hl⟩

/-! ## C10: SetStorageInfo assigns identity before unmarshalling -/

/-- C10: SetStorageInfo writes the storage id and name into the instance
before attempting to unmarshal the configuration, so they hold the new
arguments in every outcome — in particular after an unmarshal failure, as
the second conjunct exhibits on a non-dictionary blob. -/
theorem c10_setStorageInfo_partial_on_error :
    (∀ (s : IscsiStorage) (sid sname : String) (conf : Option JsonVal),
      (setStorageInfo s sid sname conf).1.storageId = sid ∧
      (setStorageInfo s sid sname conf).1.storageName = sname) ∧
    (setStorageInfo newIscsiStorage "new-id" "new-name" (some (.str "bogus"))).2 =
      .error "unmarshal iSCSI storage config: not a dict" := by
  constructor
  · intro s sid sname conf
    cases conf with
    | none => exact ⟨rfl, rfl⟩
    | some c =>
      cases c with
      | str v => exact ⟨rfl, rfl⟩
      | int n => exact ⟨rfl, rfl⟩
      | dict d =>
        unfold setStorageInfo
        cases h : unmarshalIscsiConf (.dict d) with
        | error e => simp [h]
        | ok tup =>
          obtain ⟨t, i, p, u, w, l⟩ := tup
          simp [h]
  · rfl

/-! ## C8: Mount and Unmount are idempotent fast paths -/

/-- C8: MountStorage on a connected instance returns success immediately,
issuing no external invocations and leaving the state untouched;
UnmountStorage on a disconnected instance does the same. -/
theorem c8_mount_unmount_idempotent (s : IscsiStorage) (envM : MountEnv)
    (envU : UnmountEnv) :
    (s.isConnected = true → mountStorage s envM = ⟨s, .ok (), []⟩) ∧
    (s.isConnected = false → unmountStorage s envU = ⟨s, .ok (), []⟩) := by
  constructor
  · intro h
    unfold mountStorage
    rw [h]
    rfl
  · intro h
    unfold unmountStorage
    rw [h]
    rfl

/-- Witness for C8 at a concrete connected and a concrete disconnected
instance. -/
theorem c8_mount_unmount_idempotent_witness :
    mountStorage
        { newIscsiStorage with devicePath := "/dev/sdb", isConnected := true }
        ⟨⟨"", true⟩, ⟨"", true⟩, ⟨"", true⟩, ⟨"", true⟩, ⟨"", true⟩, ⟨"", true⟩, []⟩ =
      ⟨{ newIscsiStorage with devicePath := "/dev/sdb", isConnected := true }, .ok (), []⟩ ∧
    unmountStorage newIscsiStorage ⟨⟨"", true⟩, ⟨"", true⟩⟩ =
      ⟨newIscsiStorage, .ok (), []⟩ :=
  ⟨(c8_mount_unmount_idempotent _ _ ⟨⟨"", true⟩, ⟨"", true⟩⟩).1 rfl,
    (c8_mount_unmount_idempotent newIscsiStorage
      ⟨⟨"", true⟩, ⟨"", true⟩, ⟨"", true⟩, ⟨"", true⟩, ⟨"", true⟩, ⟨"", true⟩, []⟩ _).2 rfl⟩

end Iscsi

namespace Iscsi

/-! ## C6: the connected-implies-device-path invariant -/

/-- C6: the runtime invariant "connected flag implies a non-empty device
path" holds of a freshly constructed instance and is preserved by every
MountStorage and UnmountStorage run, whatever the environment outcomes. -/
theorem c6_conn_inv_preserved (s : IscsiStorage) (envM : MountEnv) (envU : UnmountEnv) :
    ConnInv newIscsiStorage ∧
    (ConnInv s → ConnInv (mountStorage s envM).state) ∧
    (ConnInv s → ConnInv (unmountStorage s envU).state) := by
  refine ⟨?_, ?_, ?_⟩
  · intro h
    simp [newIscsiStorage] at h
  · intro hinv
    by_cases hc : s.isConnected
    · have hrun : mountStorage s envM = ⟨s, .ok (), []⟩ := by
        unfold mountStorage
        rw [hc]
        rfl
      rw [hrun]
      exact hinv
    · have hcf : s.isConnected = false := by simpa using hc
      cases hd : discoverTarget s envM.discover with
      | error e =>
        have hrun : mountStorage s envM =
            ⟨s, .error ("discover iSCSI target: " ++ e), [.discovery]⟩ := by
          unfold mountStorage
          rw [hcf, hd]
          rfl
        rw [hrun]
        exact hinv
      | ok v =>
        obtain ⟨⟩ := v
        cases hl : (loginTarget s envM).1 with
        | error e =>
          have hrun : mountStorage s envM =
              ⟨s, .error ("login to iSCSI target: " ++ e),
                .discovery :: (loginTarget s envM).2⟩ := by
            unfold mountStorage
            rw [hcf, hd]
            show (match (loginTarget s envM).1 with
              | .error e => _
              | .ok () => _) = _
            rw [hl]
          rw [hrun]
          exact hinv
        | ok v2 =>
          obtain ⟨⟩ := v2
          cases hw : waitForDevice envM.polls with
          | error e =>
            have hrun : mountStorage s envM =
                ⟨s, .error ("wait for iSCSI device: " ++ e),
                  .discovery :: (loginTarget s envM).2 ++ [.logout]⟩ := by
              unfold mountStorage
              rw [hcf, hd]
              show (match (loginTarget s envM).1 with
                | .error e => _
                | .ok () => _) = _
              rw [hl, hw]
            rw [hrun]
            exact hinv
          | ok p =>
            have hrun : mountStorage s envM =
                ⟨{ s with devicePath := p, isConnected := true }, .ok (),
                  .discovery :: (loginTarget s envM).2⟩ := by
              unfold mountStorage
              rw [hcf, hd]
              show (match (loginTarget s envM).1 with
                | .error e => _
                | .ok () => _) = _
              rw [hl, hw]
            rw [hrun]
            intro _
            exact waitForDevice_ok_ne hw
  · intro hinv
    unfold unmountStorage
    by_cases hc : s.isConnected
    · rw [show (!s.isConnected) = false from by simp [hc]]
      intro h
      simp at h
    · rw [show (!s.isConnected) = true from by simp [hc]]
      exact hinv

/-- Witness for C6 at a concrete instance and environment. -/
theorem c6_conn_inv_preserved_witness :
    ConnInv newIscsiStorage ∧
    ConnInv (mountStorage newIscsiStorage
      ⟨⟨"", false⟩, ⟨"", false⟩, ⟨"", false⟩, ⟨"", false⟩, ⟨"", false⟩, ⟨"", false⟩,
        [.ok "/dev/sdc"]⟩).state :=
  ⟨(c6_conn_inv_preserved newIscsiStorage
      ⟨⟨"", false⟩, ⟨"", false⟩, ⟨"", false⟩, ⟨"", false⟩, ⟨"", false⟩, ⟨"", false⟩,
        [.ok "/dev/sdc"]⟩ ⟨⟨"", false⟩, ⟨"", false⟩⟩).1,
    (c6_conn_inv_preserved newIscsiStorage
      ⟨⟨"", false⟩, ⟨"", false⟩, ⟨"", false⟩, ⟨"", false⟩, ⟨"", false⟩, ⟨"", false⟩,
        [.ok "/dev/sdc"]⟩ ⟨⟨"", false⟩, ⟨"", false⟩⟩).2.1
      (fun h => by simp [newIscsiStorage] at h)⟩

/-! ## C7: rollback when the device wait times out -/

/-- C7: when a Mount run on a disconnected instance passes discovery and
login but every device poll fails within the deadline, the instance stays
disconnected with no device path, a logout is issued before returning, and
the wait error is surfaced (wrapped) to the caller. -/
theorem c7_mount_rollback_on_wait_timeout (s : IscsiStorage) (env : MountEnv)
    (msg : String)
    (hconn : s.isConnected = false) (hpath : s.devicePath = "")
    (hdisc : discoverTarget s env.discover = .ok ())
    (hlogin : (loginTarget s env).1 = .ok ())
    (hwait : waitForDevice env.polls = .error msg) :
    (mountStorage s env).state.isConnected = false ∧
    (mountStorage s env).state.devicePath = "" ∧
    (mountStorage s env).result = .error ("wait for iSCSI device: " ++ msg) ∧
    IscsiCall.logout ∈ (mountStorage s env).calls := by
  have hrun : mountStorage s env =
      ⟨s, .error ("wait for iSCSI device: " ++ msg),
        .discovery :: (loginTarget s env).2 ++ [.logout]⟩ := by
    unfold mountStorage
    rw [hconn, hdisc]
    show (match (loginTarget s env).1 with
      | .error e => _
      | .ok () => _) = _
    rw [hlogin, hwait]
  rw [hrun]
  exact ⟨hconn, hpath, rfl, by simp⟩

/-- Witness for C7: a disconnected fresh instance, successful discovery and
login, and a poll sequence that never resolves. -/
theorem c7_mount_rollback_on_wait_timeout_witness :
    (mountStorage newIscsiStorage
      ⟨⟨"", false⟩, ⟨"", false⟩, ⟨"", false⟩, ⟨"", false⟩, ⟨"", false⟩, ⟨"", false⟩,
        [.error "device not found for target  lun 0"]⟩).state.isConnected = false ∧
    (mountStorage newIscsiStorage
      ⟨⟨"", false⟩, ⟨"", false⟩, ⟨"", false⟩, ⟨"", false⟩, ⟨"", false⟩, ⟨"", false⟩,
        [.error "device not found for target  lun 0"]⟩).state.devicePath = "" ∧
    (mountStorage newIscsiStorage
      ⟨⟨"", false⟩, ⟨"", false⟩, ⟨"", false⟩, ⟨"", false⟩, ⟨"", false⟩, ⟨"", false⟩,
        [.error "device not found for target  lun 0"]⟩).result =
      .error ("wait for iSCSI device: " ++ "timeout waiting for iSCSI device to appear") ∧
    IscsiCall.logout ∈ (mountStorage newIscsiStorage
      ⟨⟨"", false⟩, ⟨"", false⟩, ⟨"", false⟩, ⟨"", false⟩, ⟨"", false⟩, ⟨"", false⟩,
        [.error "device not found for target  lun 0"]⟩).calls :=
  c7_mount_rollback_on_wait_timeout newIscsiStorage
    ⟨⟨"", false⟩, ⟨"", false⟩, ⟨"", false⟩, ⟨"", false⟩, ⟨"", false⟩, ⟨"", false⟩,
      [.error "device not found for target  lun 0"]⟩
    "timeout waiting for iSCSI device to appear" rfl rfl rfl rfl rfl

end Iscsi

namespace Iscsi

/-! ## C2: the credential-update path -/

theorem jsonGetString_cons_ne {k1 k' : String} (v1 : JsonVal)
    (rest : List (String × JsonVal)) (h : ¬k1 = k') :
    jsonGetString ((k1, v1) :: rest) k' = jsonGetString rest k' := by
  unfold jsonGetString
  rw [List.find?_cons_of_neg _ (by simpa using h)]

theorem jsonGetString_cons_self (k1 : String) (v1 : JsonVal)
    (rest : List (String × JsonVal)) :
    jsonGetString ((k1, v1) :: rest) k1 =
      (match v1 with
        | .str s => s
        | .int n => toString n
        | .dict _ => "") := by
  unfold jsonGetString
  rw [List.find?_cons_of_pos _ (by simp)]
  cases v1 <;> rfl

theorem jsonSetKey_cons_self (k : String) (v1 v : JsonVal)
    (rest : List (String × JsonVal)) :
    jsonSetKey ((k, v1) :: rest) k v = (k, v) :: rest := by
  simp [jsonSetKey]

theorem jsonSetKey_cons_ne {k1 k : String} (v1 v : JsonVal)
    (rest : List (String × JsonVal)) (h : ¬k1 = k) :
    jsonSetKey ((k1, v1) :: rest) k v = (k1, v1) :: jsonSetKey rest k v := by
  simp [jsonSetKey, h]

theorem jsonGetString_jsonSetKey_str (fields : List (String × JsonVal))
    (k k' v : String) :
    jsonGetString (jsonSetKey fields k (.str v)) k' =
      if k' = k then v else jsonGetString fields k' := by
  induction fields with
  | nil =>
    by_cases h : k' = k
    · subst h
      rw [if_pos rfl]
      exact jsonGetString_cons_self _ (.str v) []
    · rw [if_neg h]
      rw [show jsonSetKey [] k (.str v) = [(k, .str v)] from rfl]
      rw [jsonGetString_cons_ne _ _ (fun hk => h hk.symm)]
  | cons p rest ih =>
    obtain ⟨k1, v1⟩ := p
    by_cases h1 : k1 = k
    · subst h1
      rw [jsonSetKey_cons_self]
      by_cases h : k' = k1
      · subst h
        rw [if_pos rfl]
        exact jsonGetString_cons_self k' (.str v) rest
      · rw [if_neg h, jsonGetString_cons_ne _ _ (fun hk => h hk.symm),
          jsonGetString_cons_ne _ _ (fun hk => h hk.symm)]
    · rw [jsonSetKey_cons_ne _ _ _ h1]
      by_cases h2 : k1 = k'
      · subst h2
        rw [if_neg h1, jsonGetString_cons_self, jsonGetString_cons_self]
      · rw [jsonGetString_cons_ne _ _ h2, jsonGetString_cons_ne _ _ h2]
        exact ih

/-- C2 (amended): on the credential-update path with a valid username and
password pair, ValidateUpdateData writes the trimmed credentials into the
configuration blob and raises the configuration-changed flag before the
connectivity probe runs, so the returned input carries them whatever the
probe outcome — including the failure case, where an error is returned
alongside the already-modified configuration. -/
theorem c2_update_writes_creds_before_probe (input : StorageUpdateInput)
    (dialOk : Bool)
    (hu : 0 < input.iscsiUsername.length) (hp : 0 < input.iscsiPassword.length)
    (hA : validateAuthParams input.iscsiUsername input.iscsiPassword = .ok ()) :
    jsonGetString (validateUpdateData input dialOk).1.storageConf "username" =
      trimSpace input.iscsiUsername ∧
    jsonGetString (validateUpdateData input dialOk).1.storageConf "password" =
      trimSpace input.iscsiPassword ∧
    (validateUpdateData input dialOk).1.updateStorageConf = true := by
  have hrun : (validateUpdateData input dialOk).1 =
      { input with
        storageConf :=
          jsonSetKey
            (jsonSetKey input.storageConf "username" (.str (trimSpace input.iscsiUsername)))
            "password" (.str (trimSpace input.iscsiPassword))
        updateStorageConf := true } := by
    unfold validateUpdateData
    rw [if_pos (Or.inl hu), hA]
    dsimp only
    split_ifs
    split
    · rfl
    · rfl
  rw [hrun]
  refine ⟨?_, ?_, rfl⟩
  · rw [jsonGetString_jsonSetKey_str, if_neg (by decide),
      jsonGetString_jsonSetKey_str, if_pos rfl]
  · rw [jsonGetString_jsonSetKey_str, if_pos rfl]

/-- Witness for C2 (amended) at a concrete update input with the probe
failing. -/
theorem c2_update_writes_creds_before_probe_witness :
    jsonGetString (validateUpdateData
      ⟨"newuser", "newpass",
        [("target", .str "192.168.1.100"),
         ("iqn", .str "iqn.2023-01.com.example:storage.target01"),
         ("portal", .str "192.168.1.100:3260")], false⟩ false).1.storageConf
      "username" = trimSpace "newuser" ∧
    jsonGetString (validateUpdateData
      ⟨"newuser", "newpass",
        [("target", .str "192.168.1.100"),
         ("iqn", .str "iqn.2023-01.com.example:storage.target01"),
         ("portal", .str "192.168.1.100:3260")], false⟩ false).1.storageConf
      "password" = trimSpace "newpass" ∧
    (validateUpdateData
      ⟨"newuser", "newpass",
        [("target", .str "192.168.1.100"),
         ("iqn", .str "iqn.2023-01.com.example:storage.target01"),
         ("portal", .str "192.168.1.100:3260")], false⟩ false).1.updateStorageConf = true :=
  c2_update_writes_creds_before_probe
    ⟨"newuser", "newpass",
      [("target", .str "192.168.1.100"),
       ("iqn", .str "iqn.2023-01.com.example:storage.target01"),
       ("portal", .str "192.168.1.100:3260")], false⟩ false
    (by decide) (by decide) rfl

/-- C2 (counterexample): on a concrete update whose probe fails, the call
returns an error, yet the returned configuration already contains the new
credentials and the configuration-changed flag is set — contradicting the
claim that on probe failure the returned configuration does not contain
them and the flag is not set. -/
theorem c2_counterexample_probe_failure_keeps_creds :
    (validateUpdateData
      ⟨"newuser2", "newpass2",
        [("target", .str "192.168.1.100"),
         ("iqn", .str "iqn.2023-01.com.example:storage.target01"),
         ("portal", .str "192.168.1.100:3260")], false⟩ false).2 =
      .error (.badRequest
        ("iSCSI connection test failed with updated configuration: " ++
          ("failed to connect to iSCSI portal " ++ "192.168.1.100:3260"))) ∧
    jsonGetString (validateUpdateData
      ⟨"newuser2", "newpass2",
        [("target", .str "192.168.1.100"),
         ("iqn", .str "iqn.2023-01.com.example:storage.target01"),
         ("portal", .str "192.168.1.100:3260")], false⟩ false).1.storageConf
      "username" = "newuser2" ∧
    jsonGetString (validateUpdateData
      ⟨"newuser2", "newpass2",
        [("target", .str "192.168.1.100"),
         ("iqn", .str "iqn.2023-01.com.example:storage.target01"),
         ("portal", .str "192.168.1.100:3260")], false⟩ false).1.storageConf
      "password" = "newpass2" ∧
    (validateUpdateData
      ⟨"newuser2", "newpass2",
        [("target", .str "192.168.1.100"),
         ("iqn", .str "iqn.2023-01.com.example:storage.target01"),
         ("portal", .str "192.168.1.100:3260")], false⟩ false).1.updateStorageConf = true := by
  refine ⟨?_, ?_, ?_, ?_⟩ <;> rfl

end Iscsi

namespace Iscsi

/-! ## C3: the device-path resolver -/

theorem findDeviceInEntries_eq (targetIP iqn : String) (lunId : Int)
    (resolve : String → Option String) (entries : List String) :
    findDeviceInEntries targetIP iqn lunId resolve entries =
      firstResolved resolve
        ((entries.filter (fun e => iscsiNameMatches targetIP iqn lunId e)).map
          (fun e => byPathDir ++ "/" ++ e)) := by
  induction entries with
  | nil => rfl
  | cons e rest ih =>
    by_cases hm : iscsiNameMatches targetIP iqn lunId e
    · simp only [findDeviceInEntries]
      rw [if_pos hm, List.filter_cons_of_pos hm, List.map_cons]
      simp only [firstResolved]
      cases resolve (byPathDir ++ "/" ++ e) with
      | some real => rfl
      | none => exact ih
    · simp only [findDeviceInEntries]
      rw [if_neg hm, List.filter_cons_of_neg hm]
      exact ih

/-- C3 (amended): findDevicePath equals the pipeline that keeps every entry
whose name contains the unanchored pattern, joins it with the directory,
and resolves entries in order, skipping the ones whose symlink resolution
fails; it errors exactly when no matching entry resolves. Because the
pattern is unanchored and the lun number is not followed by a delimiter, an
entry of a longer lun number sharing the configured lun as a decimal prefix
also matches (see the counterexample). -/
theorem c3_find_device_path_pipeline (s : IscsiStorage) (entries : List String)
    (resolve : String → Option String) :
    findDevicePath s entries resolve =
      match firstResolved resolve (matchingPaths s entries) with
      | some real => .ok real
      | none =>
        .error ("device not found for target " ++ s.iqn ++ " lun " ++ toString s.lunId) := by
  unfold findDevicePath matchingPaths
  dsimp only
  rw [findDeviceInEntries_eq]

/-- C3 (counterexample): with configured lun 1, the directory entry that
canonically encodes lun 10 matches the compiled pattern and is resolved,
so findDevicePath succeeds on a listing that contains no entry for lun 1 —
contradicting the claim that an entry for a different LUN number never
matches. -/
theorem c3_counterexample_lun_prefix_match :
    iscsiNameMatches "192.168.1.100" "iqn.2023-01.com.example:target01" 1
      "ip-192.168.1.100:3260-iscsi-iqn.2023-01.com.example:target01-lun-10" = true ∧
    "ip-192.168.1.100:3260-iscsi-iqn.2023-01.com.example:target01-lun-10" =
      "ip-" ++ "192.168.1.100:3260" ++ "-iscsi-" ++ "iqn.2023-01.com.example:target01" ++
        "-lun-" ++ toString (10 : Int) ∧
    (10 : Int) ≠ 1 ∧
    findDevicePath
      { newIscsiStorage with
        portal := "192.168.1.100:3260"
        iqn := "iqn.2023-01.com.example:target01"
        lunId := 1 }
      ["ip-192.168.1.100:3260-iscsi-iqn.2023-01.com.example:target01-lun-10"]
      (fun _ => some "/dev/sdb") = .ok "/dev/sdb" := by
  refine ⟨?_, ?_, ?_, ?_⟩
  · rfl
  · rfl
  · decide
  · rfl

end Iscsi

namespace Iscsi

/-! ## C5: duplicate detection -/

theorem validateTargetAddress_ok_ne_empty {t : String}
    (h : validateTargetAddress t = .ok ()) : ¬t.length = 0 := by
  intro h0
  unfold validateTargetAddress at h
  rw [if_pos h0] at h
  cases h

theorem validateIQN_ok_ne_empty {s : String}
    (h : validateIQN s = .ok ()) : ¬s.length = 0 := by
  intro h0
  unfold validateIQN at h
  rw [if_pos h0] at h
  cases h

theorem validatePortalAddress_ok_ne_empty {s : String}
    (h : validatePortalAddress s = .ok ()) : ¬s.length = 0 := by
  intro h0
  unfold validatePortalAddress at h
  rw [if_pos h0] at h
  cases h

/-- Tuple predicate of the duplicate scan. -/
def dupPred (input : StorageCreateInput) (r : StorageRec) : Prop :=
  input.iscsiTarget = r.target ∧ input.iscsiIqn = r.iqn ∧
    input.iscsiPortal = r.portal ∧ input.iscsiLunId = r.lunId

/-- C5: under inputs passing the format validators with a non-negative lun,
ValidateCreateData rejects with a duplicate-resource error precisely when
some fetched iSCSI storage record stores an identical
(target, iqn, portal, lun_id) tuple; with every record differing in at
least one of the four fields, the duplicate check passes. -/
theorem c5_duplicate_detection (input : StorageCreateInput)
    (storages : List StorageRec) (dialOk : Bool)
    (hT : validateTargetAddress input.iscsiTarget = .ok ())
    (hI : validateIQN input.iscsiIqn = .ok ())
    (hP : validatePortalAddress input.iscsiPortal = .ok ())
    (hA : validateAuthParams input.iscsiUsername input.iscsiPassword = .ok ())
    (hL : 0 ≤ input.iscsiLunId) :
    (∃ t i p l, validateCreateData input storages dialOk =
        .error (.duplicateResource t i p l)) ↔
      ∃ r ∈ storages, dupPred input r := by
  have hform : validateCreateData input storages dialOk =
      (match checkDuplicateStorage input storages with
        | some e => .error e
        | none =>
          match testIscsiConnection input.iscsiPortal dialOk with
          | .error e => .error (.badRequest ("iSCSI connection test failed: " ++ e))
          | .ok () =>
            .ok {
              target := trimSpace input.iscsiTarget
              iqn := trimSpace input.iscsiIqn
              portal := trimSpace input.iscsiPortal
              username := trimSpace input.iscsiUsername
              password := trimSpace input.iscsiPassword
              lunId := input.iscsiLunId }) := by
    unfold validateCreateData
    rw [if_neg (validateTargetAddress_ok_ne_empty hT), hT,
      if_neg (validateIQN_ok_ne_empty hI), hI,
      if_neg (validatePortalAddress_ok_ne_empty hP), hP, hA,
      if_neg (not_lt.mpr hL)]
  rw [hform]
  cases hdup : checkDuplicateStorage input storages with
  | some e =>
    unfold checkDuplicateStorage at hdup
    cases hfind : storages.find? (fun r => decide (input.iscsiTarget = r.target ∧
        input.iscsiIqn = r.iqn ∧ input.iscsiPortal = r.portal ∧
        input.iscsiLunId = r.lunId)) with
    | none =>
      rw [hfind] at hdup
      cases hdup
    | some r =>
      rw [hfind] at hdup
      have hmem : r ∈ storages := List.mem_of_find?_eq_some hfind
      have hpr : dupPred input r := by
        have := List.find?_some hfind
        simpa [dupPred] using this
      constructor
      · intro _
        exact ⟨r, hmem, hpr⟩
      · intro _
        have he : e = .duplicateResource r.target r.iqn r.portal r.lunId := by
          cases hdup
          rfl
        exact ⟨r.target, r.iqn, r.portal, r.lunId, by rw [he]⟩
  | none =>
    constructor
    · rintro ⟨t, i, p, l, hEq⟩
      exfalso
      cases ht : testIscsiConnection input.iscsiPortal dialOk with
      | error eb =>
        rw [ht] at hEq
        simp at hEq
      | ok u =>
        obtain ⟨⟩ := u
        rw [ht] at hEq
        simp at hEq
    · rintro ⟨r, hr, hpr⟩
      exfalso
      unfold checkDuplicateStorage at hdup
      cases hfind : storages.find? (fun r => decide (input.iscsiTarget = r.target ∧
          input.iscsiIqn = r.iqn ∧ input.iscsiPortal = r.portal ∧
          input.iscsiLunId = r.lunId)) with
      | some r2 =>
        rw [hfind] at hdup
        cases hdup
      | none =>
        have := List.find?_eq_none.mp hfind r hr
        simp only [decide_eq_true_eq] at this
        exact this hpr

/-- Witness for C5 at a concrete input whose tuple duplicates the single
existing record. -/
theorem c5_duplicate_detection_witness :
    ∃ t i p l,
      validateCreateData
        ⟨"192.168.1.100", "iqn.2023-01.com.example:storage.target01",
          "192.168.1.100:3260", "", "", 0⟩
        [⟨"s1", "iscsi", "cache-1", "online", "192.168.1.100",
          "iqn.2023-01.com.example:storage.target01", "192.168.1.100:3260", 0⟩]
        true =
      .error (.duplicateResource t i p l) :=
  (c5_duplicate_detection
    ⟨"192.168.1.100", "iqn.2023-01.com.example:storage.target01",
      "192.168.1.100:3260", "", "", 0⟩
    [⟨"s1", "iscsi", "cache-1", "online", "192.168.1.100",
      "iqn.2023-01.com.example:storage.target01", "192.168.1.100:3260", 0⟩]
    true rfl rfl rfl rfl (by decide)).mpr
    ⟨⟨"s1", "iscsi", "cache-1", "online", "192.168.1.100",
      "iqn.2023-01.com.example:storage.target01", "192.168.1.100:3260", 0⟩,
      by simp, ⟨rfl, rfl, rfl, rfl⟩⟩

/-! ## C1: the lun range at creation time -/

/-- C1 (evaluation at the failing input): a creation input with lunId 300 —
outside the documented [0, 255] range — passes ValidateCreateData, and the
stored configuration keeps lun_id 300; negative lunId is coerced to 0 as
documented. The upper bound is never enforced by the code. -/
theorem c1_lun_upper_bound_not_enforced :
    validateCreateData
      ⟨"192.168.1.100", "iqn.2023-01.com.example:storage.target01",
        "192.168.1.100:3260", "", "", 300⟩ [] true =
      .ok ⟨"192.168.1.100", "iqn.2023-01.com.example:storage.target01",
        "192.168.1.100:3260", "", "", 300⟩ ∧
    ¬((300 : Int) ≤ 255) ∧
    validateCreateData
      ⟨"192.168.1.100", "iqn.2023-01.com.example:storage.target01",
        "192.168.1.100:3260", "", "", -5⟩ [] true =
      .ok ⟨"192.168.1.100", "iqn.2023-01.com.example:storage.target01",
        "192.168.1.100:3260", "", "", 0⟩ := by
  refine ⟨rfl, by decide, rfl⟩

end Iscsi

namespace Iscsi

/-! ## C4: cache sharing across records with one connection identity -/

theorem dbGetStorage_update_self (db : Db) (sid : String)
    (f : StorageRec → StorageRec) (hf : ∀ x, (f x).id = x.id) (r : StorageRec)
    (h : dbGetStorage db sid = some r) :
    dbGetStorage (dbUpdateStorage db sid f) sid = some (f r) := by
  obtain ⟨st, ca⟩ := db
  unfold dbGetStorage at h
  unfold dbGetStorage dbUpdateStorage
  dsimp only at h ⊢
  induction st with
  | nil => cases h
  | cons a rest ih =>
    by_cases ha : a.id = sid
    · rw [List.find?_cons_of_pos _ (by simpa using ha)] at h
      injection h with h2
      subst h2
      rw [List.map_cons, if_pos ha,
        List.find?_cons_of_pos _ (by simpa using (hf a).trans ha)]
    · rw [List.find?_cons_of_neg _ (by simpa using ha)] at h
      rw [List.map_cons, if_neg ha,
        List.find?_cons_of_neg _ (by simpa using ha)]
      exact ih h

theorem postCreate_status_online (db : Db) (sid fc pc : String) (r : StorageRec)
    (h : dbGetStorage db sid = some r) :
    ∃ r2, dbGetStorage (postCreate sid fc pc db) sid = some r2 ∧
      r2.status = STORAGE_ONLINE := by
  unfold postCreate
  rw [show (db.storages.find? fun x => x.id == sid) = some r from h]
  dsimp only
  by_cases hcache : r.storagecacheId ≠ ""
  · rw [if_pos hcache]
    exact ⟨_, dbGetStorage_update_self db sid
      (fun x => { x with status := STORAGE_ONLINE }) (fun x => rfl) r h, rfl⟩
  · rw [if_neg hcache]
    cases hex : (db.storages.filter fun x => x.storageType == STORAGE_ISCSI).find?
        (fun x => decide (x.id ≠ r.id ∧ r.target = x.target ∧ r.iqn = x.iqn ∧
          r.portal = x.portal ∧ x.storagecacheId ≠ "")) with
    | some ex =>
      exact ⟨_, dbGetStorage_update_self db sid
        (fun x => { x with storagecacheId := ex.storagecacheId, status := STORAGE_ONLINE })
        (fun x => rfl) r h, rfl⟩
    | none =>
      exact ⟨_, dbGetStorage_update_self db sid
        (fun x => { x with storagecacheId := fc, status := STORAGE_ONLINE })
        (fun x => rfl) r h, rfl⟩

end Iscsi

namespace Iscsi

/-- C4: reconciling three fresh iSCSI records in sequence — two sharing
(target, iqn, portal) but with different luns, a third with another
portal — leaves the first two referencing the first record's newly created
cache (the lun is not part of the comparison), gives the third its own
fresh cache record, and every PostCreate run flips the reconciled record's
status to online (last conjunct, for any record in any branch). -/
theorem c4_cache_sharing (s1 s2 s3 : StorageRec) (f1 f2 f3 cachePath : String)
    (ht1 : s1.storageType = STORAGE_ISCSI) (ht2 : s2.storageType = STORAGE_ISCSI)
    (ht3 : s3.storageType = STORAGE_ISCSI)
    (hid12 : s1.id ≠ s2.id) (hid13 : s1.id ≠ s3.id) (hid23 : s2.id ≠ s3.id)
    (hc1 : s1.storagecacheId = "") (hc2 : s2.storagecacheId = "")
    (hc3 : s3.storagecacheId = "")
    (htg : s2.target = s1.target) (hiq : s2.iqn = s1.iqn) (hpo : s2.portal = s1.portal)
    (hlun : s1.lunId ≠ s2.lunId)
    (htg3 : s3.target = s1.target) (hiq3 : s3.iqn = s1.iqn)
    (hpo3 : s3.portal ≠ s1.portal)
    (hf1 : f1 ≠ "") (hf13 : f3 ≠ f1) :
    ((dbGetStorage (postCreate s3.id f3 cachePath (postCreate s2.id f2 cachePath
        (postCreate s1.id f1 cachePath ⟨[s1, s2, s3], []⟩))) s1.id).map
      (fun r => (r.storagecacheId, r.status))) = some (f1, STORAGE_ONLINE) ∧
    ((dbGetStorage (postCreate s3.id f3 cachePath (postCreate s2.id f2 cachePath
        (postCreate s1.id f1 cachePath ⟨[s1, s2, s3], []⟩))) s2.id).map
      (fun r => (r.storagecacheId, r.status))) = some (f1, STORAGE_ONLINE) ∧
    ((dbGetStorage (postCreate s3.id f3 cachePath (postCreate s2.id f2 cachePath
        (postCreate s1.id f1 cachePath ⟨[s1, s2, s3], []⟩))) s3.id).map
      (fun r => (r.storagecacheId, r.status))) = some (f3, STORAGE_ONLINE) ∧
    f3 ≠ f1 ∧
    (⟨f3, "iscsi-cache-" ++ s3.id, cachePath, s3.id⟩ : CacheRec) ∈
      (postCreate s3.id f3 cachePath (postCreate s2.id f2 cachePath
        (postCreate s1.id f1 cachePath ⟨[s1, s2, s3], []⟩))).caches ∧
    (∀ (db : Db) (sid fc pc : String) (r : StorageRec),
      dbGetStorage db sid = some r →
      ∃ r2, dbGetStorage (postCreate sid fc pc db) sid = some r2 ∧
        r2.status = STORAGE_ONLINE) := by
  have hne21 : ¬(s2.id = s1.id) := fun h => hid12 h.symm
  have hne31 : ¬(s3.id = s1.id) := fun h => hid13 h.symm
  have hne12 : ¬(s1.id = s2.id) := hid12
  have hne32 : ¬(s3.id = s2.id) := fun h => hid23 h.symm
  have hne13 : ¬(s1.id = s3.id) := hid13
  have hne23 : ¬(s2.id = s3.id) := hid23
  have h1 : postCreate s1.id f1 cachePath ⟨[s1, s2, s3], []⟩ =
      ⟨[{ s1 with storagecacheId := f1, status := STORAGE_ONLINE }, s2, s3],
        [⟨f1, "iscsi-cache-" ++ s1.id, cachePath, s1.id⟩]⟩ := by
    unfold postCreate
    rw [show (([s1, s2, s3] : List StorageRec).find? fun r => r.id == s1.id) = some s1 from
      List.find?_cons_of_pos _ (by simp)]
    dsimp only
    rw [if_neg (by simp [hc1])]
    rw [List.filter_cons_of_pos (by simp [ht1]), List.filter_cons_of_pos (by simp [ht2]),
      List.filter_cons_of_pos (by simp [ht3]), List.filter_nil]
    rw [List.find?_cons_of_neg _ (by simp), List.find?_cons_of_neg _ (by simp [hc2]),
      List.find?_cons_of_neg _ (by simp [hc3])]
    dsimp only [List.find?]
    simp only [dbUpdateStorage, List.map_cons, List.map_nil]
    rw [if_neg hne21, if_neg hne31, if_pos trivial]
    rfl
  rw [h1]
  have h2 : postCreate s2.id f2 cachePath
      ⟨[{ s1 with storagecacheId := f1, status := STORAGE_ONLINE }, s2, s3],
        [⟨f1, "iscsi-cache-" ++ s1.id, cachePath, s1.id⟩]⟩ =
      ⟨[{ s1 with storagecacheId := f1, status := STORAGE_ONLINE },
        { s2 with storagecacheId := f1, status := STORAGE_ONLINE }, s3],
        [⟨f1, "iscsi-cache-" ++ s1.id, cachePath, s1.id⟩]⟩ := by
    unfold postCreate
    rw [List.find?_cons_of_neg _ (by simp [hne12]),
      List.find?_cons_of_pos _ (by simp)]
    dsimp only
    rw [if_neg (by simp [hc2])]
    rw [List.filter_cons_of_pos (by simp [ht1]), List.filter_cons_of_pos (by simp [ht2]),
      List.filter_cons_of_pos (by simp [ht3]), List.filter_nil]
    rw [List.find?_cons_of_pos _ (by simp [hid12, htg, hiq, hpo, hf1])]
    dsimp only
    simp only [dbUpdateStorage, List.map_cons, List.map_nil]
    rw [if_neg hne12, if_neg hne32, if_pos trivial]
  rw [h2]
  have h3 : postCreate s3.id f3 cachePath
      ⟨[{ s1 with storagecacheId := f1, status := STORAGE_ONLINE },
        { s2 with storagecacheId := f1, status := STORAGE_ONLINE }, s3],
        [⟨f1, "iscsi-cache-" ++ s1.id, cachePath, s1.id⟩]⟩ =
      ⟨[{ s1 with storagecacheId := f1, status := STORAGE_ONLINE },
        { s2 with storagecacheId := f1, status := STORAGE_ONLINE },
        { s3 with storagecacheId := f3, status := STORAGE_ONLINE }],
        [⟨f1, "iscsi-cache-" ++ s1.id, cachePath, s1.id⟩,
          ⟨f3, "iscsi-cache-" ++ s3.id, cachePath, s3.id⟩]⟩ := by
    unfold postCreate
    rw [List.find?_cons_of_neg _ (by simp [hne13]),
      List.find?_cons_of_neg _ (by simp [hne23]),
      List.find?_cons_of_pos _ (by simp)]
    dsimp only
    rw [if_neg (by simp [hc3])]
    rw [List.filter_cons_of_pos (by simp [ht1]), List.filter_cons_of_pos (by simp [ht2]),
      List.filter_cons_of_pos (by simp [ht3]), List.filter_nil]
    rw [List.find?_cons_of_neg _ (by simp [hpo3]),
      List.find?_cons_of_neg _ (by simp [hpo, hpo3]),
      List.find?_cons_of_neg _ (by simp)]
    dsimp only [List.find?]
    simp only [dbUpdateStorage, List.map_cons, List.map_nil]
    rw [if_neg hne13, if_neg hne23, if_pos trivial]
    rfl
  rw [h3]
  have g1 : dbGetStorage
      ⟨[{ s1 with storagecacheId := f1, status := STORAGE_ONLINE },
        { s2 with storagecacheId := f1, status := STORAGE_ONLINE },
        { s3 with storagecacheId := f3, status := STORAGE_ONLINE }],
        [⟨f1, "iscsi-cache-" ++ s1.id, cachePath, s1.id⟩,
          ⟨f3, "iscsi-cache-" ++ s3.id, cachePath, s3.id⟩]⟩ s1.id =
      some { s1 with storagecacheId := f1, status := STORAGE_ONLINE } := by
    unfold dbGetStorage
    rw [List.find?_cons_of_pos _ (by simp)]
  have g2 : dbGetStorage
      ⟨[{ s1 with storagecacheId := f1, status := STORAGE_ONLINE },
        { s2 with storagecacheId := f1, status := STORAGE_ONLINE },
        { s3 with storagecacheId := f3, status := STORAGE_ONLINE }],
        [⟨f1, "iscsi-cache-" ++ s1.id, cachePath, s1.id⟩,
          ⟨f3, "iscsi-cache-" ++ s3.id, cachePath, s3.id⟩]⟩ s2.id =
      some { s2 with storagecacheId := f1, status := STORAGE_ONLINE } := by
    unfold dbGetStorage
    rw [List.find?_cons_of_neg _ (by simp [hne12]),
      List.find?_cons_of_pos _ (by simp)]
  have g3 : dbGetStorage
      ⟨[{ s1 with storagecacheId := f1, status := STORAGE_ONLINE },
        { s2 with storagecacheId := f1, status := STORAGE_ONLINE },
        { s3 with storagecacheId := f3, status := STORAGE_ONLINE }],
        [⟨f1, "iscsi-cache-" ++ s1.id, cachePath, s1.id⟩,
          ⟨f3, "iscsi-cache-" ++ s3.id, cachePath, s3.id⟩]⟩ s3.id =
      some { s3 with storagecacheId := f3, status := STORAGE_ONLINE } := by
    unfold dbGetStorage
    rw [List.find?_cons_of_neg _ (by simp [hne13]),
      List.find?_cons_of_neg _ (by simp [hne23]),
      List.find?_cons_of_pos _ (by simp)]
  refine ⟨?_, ?_, ?_, hf13, by simp, ?_⟩
  · rw [g1]
    rfl
  · rw [g2]
    rfl
  · rw [g3]
    rfl
  · intro db sid fc pc r h
    exact postCreate_status_online db sid fc pc r h

end Iscsi

namespace Iscsi

/-- Witness for C4 at three concrete records: two sharing the connection
triple with different luns, a third behind another portal. -/
theorem c4_cache_sharing_witness :
    ((dbGetStorage (postCreate "s3" "c3" "/cache" (postCreate "s2" "c2" "/cache"
        (postCreate "s1" "c1" "/cache"
          ⟨[⟨"s1", "iscsi", "", "", "10.0.0.1", "iqn.2023-01.com.example:t", "10.0.0.1:3260", 0⟩,
            ⟨"s2", "iscsi", "", "", "10.0.0.1", "iqn.2023-01.com.example:t", "10.0.0.1:3260", 1⟩,
            ⟨"s3", "iscsi", "", "", "10.0.0.1", "iqn.2023-01.com.example:t", "10.0.0.2:3260", 0⟩],
            []⟩))) "s1").map (fun r => (r.storagecacheId, r.status))) =
      some ("c1", STORAGE_ONLINE) ∧
    ((dbGetStorage (postCreate "s3" "c3" "/cache" (postCreate "s2" "c2" "/cache"
        (postCreate "s1" "c1" "/cache"
          ⟨[⟨"s1", "iscsi", "", "", "10.0.0.1", "iqn.2023-01.com.example:t", "10.0.0.1:3260", 0⟩,
            ⟨"s2", "iscsi", "", "", "10.0.0.1", "iqn.2023-01.com.example:t", "10.0.0.1:3260", 1⟩,
            ⟨"s3", "iscsi", "", "", "10.0.0.1", "iqn.2023-01.com.example:t", "10.0.0.2:3260", 0⟩],
            []⟩))) "s2").map (fun r => (r.storagecacheId, r.status))) =
      some ("c1", STORAGE_ONLINE) ∧
    ((dbGetStorage (postCreate "s3" "c3" "/cache" (postCreate "s2" "c2" "/cache"
        (postCreate "s1" "c1" "/cache"
          ⟨[⟨"s1", "iscsi", "", "", "10.0.0.1", "iqn.2023-01.com.example:t", "10.0.0.1:3260", 0⟩,
            ⟨"s2", "iscsi", "", "", "10.0.0.1", "iqn.2023-01.com.example:t", "10.0.0.1:3260", 1⟩,
            ⟨"s3", "iscsi", "", "", "10.0.0.1", "iqn.2023-01.com.example:t", "10.0.0.2:3260", 0⟩],
            []⟩))) "s3").map (fun r => (r.storagecacheId, r.status))) =
      some ("c3", STORAGE_ONLINE) := by
  have h := c4_cache_sharing
    ⟨"s1", "iscsi", "", "", "10.0.0.1", "iqn.2023-01.com.example:t", "10.0.0.1:3260", 0⟩
    ⟨"s2", "iscsi", "", "", "10.0.0.1", "iqn.2023-01.com.example:t", "10.0.0.1:3260", 1⟩
    ⟨"s3", "iscsi", "", "", "10.0.0.1", "iqn.2023-01.com.example:t", "10.0.0.2:3260", 0⟩
    "c1" "c2" "c3" "/cache" rfl rfl rfl (by decide) (by decide) (by decide)
    rfl rfl rfl rfl rfl rfl (by decide) rfl rfl (by decide) (by decide) (by decide)
  exact ⟨h.1, h.2.1, h.2.2.1⟩

end Iscsi
